import Mathlib

/-!
Verification development for the AI-Speaker-Notes-Generator repository
(src/add_speaker_notes.py and src/server.py).

The Python source is shallowly embedded below.  Conventions of the embedding:
  * PIL images and PyMuPDF page renders are values of the inductive type `Img`;
    the pixel payload of externally decoded images is kept as an abstract byte
    list, and resizing is a constructor (the resampled pixel data is opaque).
  * PNG serialisation and base64 encoding are external library capabilities and
    are passed in as a `Codec` record of functions.
  * The Gemini call `client.models.generate_content` is the external backend.
    It is passed in as a `Backend` record; a result of `none` models the call
    raising an exception (network, quota, malformed response), which is the
    only failure mode of the call sites.  All other embedded code is total,
    mirroring the fact that outside the generation call the pipelines only
    perform pure data manipulation in the model.
  * Python float divisions that feed `int(...)` truncation are modelled as
    exact rational / natural floor arithmetic.
  * Generators (`yield`) are modelled as functions returning the list of
    emitted `Step`s, where a `Step` is either an emitted progress event or the
    externally visible save effect `prs.save(output_pptx)`.
-/

namespace SpeakerNotes

/-- Style configuration record: the entries of the `style_configs` dict in
`generate_speaker_notes` / `generate_notes_from_text`. -/
structure StyleConfig where
  duration : String
  detail : String
  sentences : String
deriving DecidableEq, Repr

/-- The `brief` entry of `style_configs`. -/
def briefStyle : StyleConfig :=
  { duration := "20-30 seconds"
    detail := "concise and to the point"
    sentences := "2-4 sentences" }

/-- The `standard` entry of `style_configs`. -/
def standardStyle : StyleConfig :=
  { duration := "45-60 seconds"
    detail := "clear and comprehensive"
    sentences := "4-6 sentences" }

/-- The `detailed` entry of `style_configs`. -/
def detailedStyle : StyleConfig :=
  { duration := "90-120 seconds"
    detail := "thorough and detailed with context and examples"
    sentences := "8-12 sentences" }

/-- The `style_configs` dict as a lookup function (key → value). -/
def style_configs (k : String) : Option StyleConfig :=
  if k = "brief" then some briefStyle
  else if k = "standard" then some standardStyle
  else if k = "detailed" then some detailedStyle
  else none

/-- `style_configs.get(note_style, style_configs["standard"])` from both
generator entry points. -/
def resolveStyleConfig (note_style : String) : StyleConfig :=
  (style_configs note_style).getD standardStyle

/-- The `tone_configs` dict as a lookup function.  The dict literal in
`generate_speaker_notes` repeats four keys with identical values; the
resulting Python dict is the same nine-entry mapping used in
`generate_notes_from_text`, which is what is embedded here. -/
def tone_configs (k : String) : Option String :=
  if k = "professional" then some "professional and business-appropriate"
  else if k = "casual" then some "friendly and conversational"
  else if k = "academic" then some "scholarly and research-oriented"
  else if k = "persuasive" then some "compelling and convincing"
  else if k = "enthusiastic" then some "energetic and passionate"
  else if k = "storytelling" then some "narrative-driven and engaging with stories"
  else if k = "technical" then some "precise and technically detailed"
  else if k = "inspirational" then some "motivational and uplifting"
  else if k = "educational" then some "clear and instructive for learning"
  else none

/-- `tone_configs.get(note_tone, tone_configs["professional"])` from both
generator entry points. -/
def resolveToneDescription (note_tone : String) : String :=
  (tone_configs note_tone).getD "professional and business-appropriate"

/-- Drops leading whitespace characters from a character list. -/
def dropLeadingWS : List Char → List Char
  | [] => []
  | c :: cs => if c.isWhitespace then dropLeadingWS cs else c :: cs

/-- Python `str.strip()`: removes leading and trailing whitespace.  (Defined
on the character list so that it is kernel-computable; `String.trim` of the
library is the same operation but does not reduce.) -/
def pyStrip (s : String) : String :=
  ⟨(dropLeadingWS ((dropLeadingWS s.data).reverse)).reverse⟩

/-- Worker for `pySplitWS`, carrying the reversed current chunk. -/
def pySplitWSAux : List Char → List Char → List String
  | [], acc => if acc.isEmpty then [] else [⟨acc.reverse⟩]
  | c :: cs, acc =>
      if c.isWhitespace then
        (if acc.isEmpty then [] else [⟨acc.reverse⟩]) ++ pySplitWSAux cs []
      else pySplitWSAux cs (c :: acc)

/-- Python `str.split()` with no separator: splits on runs of whitespace and
never produces empty pieces. -/
def pySplitWS (s : String) : List String := pySplitWSAux s.data []

/-- The data interpolated into the fixed prompt template that is sent to the
backend: the resolved style fields, the resolved tone register, and (for the
text entry point) the slide text.  `slideText = none` corresponds to the
image-analysis template of `generate_speaker_notes`; `some t` to the
text template of `generate_notes_from_text`. -/
structure Prompt where
  duration : String
  detail : String
  sentences : String
  tone : String
  slideText : Option String
deriving DecidableEq, Repr

/-- Builds the prompt payload from the style/tone arguments, mirroring the
`style_config` / `tone_description` resolution followed by the f-string
interpolation in both entry points. -/
def mkPrompt (note_style note_tone : String) (slideText : Option String) : Prompt :=
  let style_config := resolveStyleConfig note_style
  let tone_description := resolveToneDescription note_tone
  { duration := style_config.duration
    detail := style_config.detail
    sentences := style_config.sentences
    tone := tone_description
    slideText := slideText }

/-- One drawing operation performed on the canvas of
`render_slide_as_image`, recording the arguments that the source computes and
hands to PIL.  `pasteImage` keeps the embedded image blob together with the
resize box; `textBlock` keeps the box and the word-wrapped lines;
`tableGrid` keeps the box and the drawn cell texts with their positions. -/
inductive DrawOp where
  | pasteImage (blob : List Nat) (left top width height : Nat)
  | textBlock (left top width height : Nat) (lines : List String)
  | tableGrid (left top width height : Nat) (cells : List (Nat × Nat × String))
deriving DecidableEq, Repr

/-- A raster image.  `raster` is an externally produced bitmap (a rendered PDF
page); `canvas` is the composite produced by `render_slide_as_image`;
`resized` is the result of `PIL.Image.resize` (the resampled pixels are
opaque, so the constructor keeps the source and the new dimensions). -/
inductive Img where
  | raster (width height : Nat) (data : List Nat)
  | canvas (width height : Nat) (ops : List DrawOp)
  | resized (src : Img) (width height : Nat)
deriving DecidableEq, Repr

/-- Pixel width of an image (`.width` / `.size[0]` in PIL). -/
def Img.width : Img → Nat
  | .raster w _ _ => w
  | .canvas w _ _ => w
  | .resized _ w _ => w

/-- Pixel height of an image (`.height` / `.size[1]` in PIL). -/
def Img.height : Img → Nat
  | .raster _ h _ => h
  | .canvas _ h _ => h
  | .resized _ _ h => h

/-- External serialisation capabilities used by the pipelines: PNG
serialisation (`image.save(buf, format="PNG")`) and base64 text encoding
(`base64.b64encode(...).decode("utf-8")`). -/
structure Codec where
  png : Img → List Nat
  b64 : List Nat → String

/-- The external generation backend, i.e. `client.models.generate_content`.
`fromImage` receives the PNG bytes of the image plus the prompt payload;
`fromText` receives the text prompt payload.  A `none` result models the call
raising (network error, quota, malformed response). -/
structure Backend where
  fromImage : List Nat → Prompt → Option String
  fromText : Prompt → Option String

/-- The fixed placeholder returned by the `except` branch of both
`generate_speaker_notes` and `generate_notes_from_text`. -/
def failurePlaceholder : String :=
  "Speaker notes could not be generated for this slide."

/-- The placeholder that `generate_notes_from_text` returns without calling
the backend when the input text is empty or whitespace-only. -/
def visualOnlyPlaceholder : String :=
  "This slide appears to contain visual content without text. Please review the slide and add appropriate speaker notes."

/-- `generate_speaker_notes(image, api_key, note_style, note_tone)`:
serialises the image to PNG, resolves style and tone, sends the request, and
returns the stripped response text; if the generation call raises, returns
`failurePlaceholder`. -/
def generate_speaker_notes (codec : Codec) (b : Backend) (image : Img)
    (note_style note_tone : String) : String :=
  let img_byte_arr := codec.png image
  match b.fromImage img_byte_arr (mkPrompt note_style note_tone none) with
  | some t => pyStrip t
  | none => failurePlaceholder

/-- `generate_notes_from_text(slide_text, api_key, note_style, note_tone)`:
short-circuits to `visualOnlyPlaceholder` on empty/whitespace input, otherwise
sends the text request and returns the stripped response; if the generation
call raises, returns `failurePlaceholder`. -/
def generate_notes_from_text (b : Backend) (slide_text : String)
    (note_style note_tone : String) : String :=
  if (pyStrip slide_text).isEmpty then
    visualOnlyPlaceholder
  else
    match b.fromText (mkPrompt note_style note_tone (some slide_text)) with
    | some t => pyStrip t
    | none => failurePlaceholder

/-- Kind of a pptx shape as distinguished by `render_slide_as_image` and the
text-extraction loops: a picture (`shape_type == 13`, with its embedded image
blob), a text-bearing shape (`hasattr(shape, "text")`, carrying its text), a
table graphic frame (`shape.has_table`, carrying its cell texts row by row),
or any other shape. -/
inductive ShapeKind where
  | picture (blob : List Nat)
  | textbox (text : String)
  | table (cells : List (List String))
  | other
deriving DecidableEq, Repr

/-- A shape on a slide: its bounding box in EMU (`shape.left`, `shape.top`,
`shape.width`, `shape.height`) and its kind. -/
structure Shape where
  left : Nat
  top : Nat
  width : Nat
  height : Nat
  kind : ShapeKind
deriving DecidableEq, Repr

/-- A slide: its shapes and its presenter-notes text
(`slide.notes_slide.notes_text_frame.text`). -/
structure Slide where
  shapes : List Shape
  notes : String
deriving DecidableEq, Repr

/-- A presentation: slide dimensions in EMU (`prs.slide_width`,
`prs.slide_height`) and the slide list. -/
structure Deck where
  slideWidth : Nat
  slideHeight : Nat
  slides : List Slide
deriving DecidableEq, Repr

/-- The text-extraction loop shared by `add_notes_to_pptx` and
`process_pptx_with_progress`: for each shape, the stripped non-empty shape
text, plus the stripped non-empty cell texts of tables, in iteration order. -/
def extractSlideText (slide : Slide) : List String :=
  slide.shapes.flatMap fun sh =>
    match sh.kind with
    | .textbox t => if (pyStrip t).isEmpty then [] else [pyStrip t]
    | .table cells =>
        cells.flatMap fun row =>
          row.filterMap fun cell =>
            if (pyStrip cell).isEmpty then none else some (pyStrip cell)
    | _ => []

/-- `combined_text = "\n".join(slide_text)`. -/
def combinedText (slide : Slide) : String :=
  String.intercalate "\n" (extractSlideText slide)

/-- Appends the pending line if non-empty: the
`if current_line: lines.append(current_line)` step of the word wrap in
`render_slide_as_image`. -/
def wrapAppend (lines : List String) (current : String) : List String :=
  if current.isEmpty then lines else lines ++ [current]

/-- One iteration of the word-wrapping loop of `render_slide_as_image`:
extend the current line if the 10-pixels-per-character estimate keeps it
inside the box width, otherwise flush it and start a new line. -/
def wrapStep (width : Nat) (st : List String × String) (word : String) :
    List String × String :=
  let test_line := if st.2.isEmpty then word else st.2 ++ " " ++ word
  if test_line.length * 10 < width then (st.1, test_line)
  else (wrapAppend st.1 st.2, word)

/-- The word wrap of `render_slide_as_image`: split on whitespace, greedily
fill lines against the box width, keep at most 10 lines. -/
def wrapLines (text : String) (width : Nat) : List String :=
  let words := pySplitWS text
  let st := words.foldl (wrapStep width) ([], "")
  (wrapAppend st.1 st.2).take 10

/-- The table-drawing loop of `render_slide_as_image`: first 5 rows and 5
columns, each cell text stripped and truncated to 30 characters, drawn (when
non-empty) at the running x/y positions derived from the box and the full
row/column counts. -/
def tableCellTexts (cells : List (List String)) (left top width height : Nat) :
    List (Nat × Nat × String) :=
  let row_height := if cells.length > 0 then height / cells.length else 30
  (cells.take 5).enum.flatMap fun rr =>
    let col_width := if rr.2.length > 0 then width / rr.2.length else 100
    (rr.2.take 5).enum.filterMap fun cc =>
      let cell_text := (pyStrip cc.2).take 30
      if cell_text.isEmpty then none
      else some (left + cc.1 * col_width + 5, top + rr.1 * row_height + 5, cell_text)

/-- Per-shape step of `render_slide_as_image`: scale the EMU bounding box to
canvas pixels and produce the drawing operation for the shape, or `none` when
the shape contributes nothing (empty text, unknown kind).  A `some` result is
exactly the case in which the source sets `has_content = True`. -/
def renderShapeOp (slideW slideH imgW imgH : Nat) (sh : Shape) : Option DrawOp :=
  let left := sh.left * imgW / slideW
  let top := sh.top * imgH / slideH
  let width := sh.width * imgW / slideW
  let height := sh.height * imgH / slideH
  match sh.kind with
  | .picture blob => some (.pasteImage blob left top width height)
  | .textbox t =>
      if (pyStrip t).isEmpty then none
      else some (.textBlock left top width height (wrapLines ((pyStrip t).take 500) width))
  | .table cells =>
      some (.tableGrid left top width height (tableCellTexts cells left top width height))
  | .other => none

/-- `render_slide_as_image(prs, slide_idx)`: a white canvas sized to the
slide dimensions at 150 DPI (EMU → inches is division by 914400), with one
drawing operation per contributing shape; returns `none` when no shape
contributed content. -/
def render_slide_as_image (prs : Deck) (slide : Slide) : Option Img :=
  let img_width := prs.slideWidth * 150 / 914400
  let img_height := prs.slideHeight * 150 / 914400
  let ops := slide.shapes.filterMap
    (renderShapeOp prs.slideWidth prs.slideHeight img_width img_height)
  if ops.isEmpty then none else some (.canvas img_width img_height ops)

/-- The preview downscale-and-encode block shared by
`process_pptx_with_progress` and `process_pdf_with_progress`: copy the image,
resize to width 800 (height scaled proportionally, truncated) only when the
width exceeds 800, then PNG-serialise and base64-encode. -/
def previewBase64 (codec : Codec) (img : Img) : String :=
  let display_image :=
    if img.width > 800 then Img.resized img 800 (img.height * 800 / img.width)
    else img
  codec.b64 (codec.png display_image)

/-- The notes resolution of the per-slide body of
`process_pptx_with_progress`: image analysis when a visual representation
exists, text fallback when there is extracted text, otherwise the fixed
streaming-pipeline empty-slide placeholder.  The `except` arms that would
replace an exception escaping `generate_speaker_notes` /
`generate_notes_from_text` are unreachable in the model because both entry
points already catch the backend failure internally. -/
def pptxSlideNotes (codec : Codec) (b : Backend) (note_style note_tone : String)
    (prs : Deck) (slide : Slide) : String :=
  let combined_text := combinedText slide
  let slide_image := render_slide_as_image prs slide
  let notes : Option String :=
    match slide_image with
    | some im => some (generate_speaker_notes codec b im note_style note_tone)
    | none => none
  let notes : Option String :=
    match notes with
    | some n => some n
    | none =>
        if combined_text.isEmpty then none
        else some (generate_notes_from_text b combined_text note_style note_tone)
  notes.getD "This slide appears to be empty or contains only visual elements without text."

/-- The deck that `process_pptx_with_progress` saves: every slide of the
input with its notes replaced by the resolved narration. -/
def pptxOutputDeck (codec : Codec) (b : Backend) (input : Deck)
    (note_style note_tone : String) : Deck :=
  { input with
    slides := input.slides.map fun slide =>
      { slide with notes := pptxSlideNotes codec b note_style note_tone input slide } }

/-- `add_notes_to_pptx(input_pptx, output_pptx, api_key)`: the blocking
existing-deck pipeline.  Per slide it extracts text, synthesises a visual,
prefers image analysis (always with the default `standard`/`professional`
style and tone, since this form passes no style arguments), falls back to
text generation, and otherwise uses its own fixed empty-slide placeholder
before saving the deck.  The `except` arms replacing an exception escaping
the entry points are unreachable in the model for the same reason as in
`pptxSlideNotes`. -/
def add_notes_to_pptx (codec : Codec) (b : Backend) (input : Deck) : Deck :=
  { input with
    slides := input.slides.map fun slide =>
      let combined_text := combinedText slide
      let slide_image := render_slide_as_image input slide
      let notes : Option String :=
        match slide_image with
        | some im => some (generate_speaker_notes codec b im "standard" "professional")
        | none => none
      let notes : Option String :=
        match notes with
        | some n => some n
        | none =>
            if combined_text.isEmpty then none
            else some (generate_notes_from_text b combined_text "standard" "professional")
      { slide with
        notes := notes.getD "This slide appears to be empty or contains only visual elements without text. Please review and add custom speaker notes as needed." } }

/-- A progress event as yielded by the pipelines and the server:
the dictionaries `{"status": ..., ...}` of the source.  The `error` events of
`event_generator` carry only an error message. -/
inductive Event where
  | started (total_slides : Nat) (message : String)
  | processing (current_slide total_slides : Nat) (message : String)
      (slide_image : Option String)
  | saving (message : String)
  | complete (filename : String)
  | error (message : String)
deriving DecidableEq, Repr

/-- One observable step of a pipeline run: either a yielded progress event or
the `prs.save(output_pptx)` effect. -/
inductive Step where
  | emit (e : Event)
  | saveDeck (deck : Deck) (path : String)
deriving DecidableEq, Repr

/-- The two `processing` events that the per-slide body of
`process_pptx_with_progress` yields for one slide: one before the narration
call and one after notes are attached, both carrying the same preview
payload (computed once from the synthesised visual, `none` if there is no
visual). -/
def pptxSlideEvents (codec : Codec) (prs : Deck) (num_slides idx : Nat)
    (slide : Slide) : List Event :=
  [ .processing (idx + 1) num_slides
      s!"Processing slide {idx + 1} of {num_slides}..."
      ((render_slide_as_image prs slide).map (previewBase64 codec)),
    .processing (idx + 1) num_slides
      s!"Completed slide {idx + 1} of {num_slides}"
      ((render_slide_as_image prs slide).map (previewBase64 codec)) ]

/-- `process_pptx_with_progress(input_pptx, output_pptx, api_key, note_style,
note_tone)`: yields `started`, two `processing` events per slide, performs
the save, and yields `saving`. -/
def process_pptx_with_progress (codec : Codec) (b : Backend) (input : Deck)
    (output_pptx note_style note_tone : String) : List Step :=
  let num_slides := input.slides.length
  (Step.emit (.started num_slides s!"Starting to process {num_slides} slides...")
    :: (input.slides.enum.flatMap fun p =>
          (pptxSlideEvents codec input num_slides p.1 p.2).map Step.emit))
  ++ [Step.saveDeck (pptxOutputDeck codec b input note_style note_tone) output_pptx,
      Step.emit (.saving "Saving presentation...")]

/-- Aspect-fit placement of a page image on a slide, as computed identically
in `pdf_to_pptx_with_notes` and `process_pdf_with_progress`. -/
structure Placement where
  pic_width : Nat
  pic_height : Nat
  left : Nat
  top : Nat
deriving DecidableEq, Repr

/-- The aspect-fit computation: compare the image aspect ratio with the slide
aspect ratio (float division in the source, exact rationals here); pin the
width and centre vertically when the image is proportionally wider, otherwise
pin the height and centre horizontally.  `int(...)` truncation of the
non-negative quotients is natural floor division. -/
def aspectFit (slideW slideH imgW imgH : Nat) : Placement :=
  if ((imgW : ℚ) / (imgH : ℚ)) > ((slideW : ℚ) / (slideH : ℚ)) then
    let pic_width := slideW
    let pic_height := slideW * imgH / imgW
    { pic_width := pic_width, pic_height := pic_height,
      left := 0, top := (slideH - pic_height) / 2 }
  else
    let pic_height := slideH
    let pic_width := slideH * imgW / imgH
    { pic_width := pic_width, pic_height := pic_height,
      left := (slideW - pic_width) / 2, top := 0 }

/-- A paged PDF document, modelled as its pages already rasterised at the
requested DPI (the fitz rendering itself is an external collaborator). -/
structure Pdf where
  pages : List Img
deriving DecidableEq, Repr

/-- `Inches(10)` in EMU: the slide width set by the PDF pipelines. -/
def pdfSlideWidth : Nat := 9144000

/-- `Inches(5.625)` in EMU: the slide height set by the PDF pipelines. -/
def pdfSlideHeight : Nat := 5143500

/-- The slide built for one PDF page by `process_pdf_with_progress`: a blank
slide holding the PNG-serialised page image at its aspect-fit placement, with
the generated narration as notes. -/
def pdfPageSlide (codec : Codec) (b : Backend) (note_style note_tone : String)
    (page : Img) : Slide :=
  let fit := aspectFit pdfSlideWidth pdfSlideHeight page.width page.height
  { shapes := [{ left := fit.left, top := fit.top,
                 width := fit.pic_width, height := fit.pic_height,
                 kind := .picture (codec.png page) }],
    notes := generate_speaker_notes codec b page note_style note_tone }

/-- The deck that `process_pdf_with_progress` saves: a 10 x 5.625 inch deck
with one image slide per page. -/
def pdfOutputDeck (codec : Codec) (b : Backend) (pdf : Pdf)
    (note_style note_tone : String) : Deck :=
  { slideWidth := pdfSlideWidth, slideHeight := pdfSlideHeight,
    slides := pdf.pages.map (pdfPageSlide codec b note_style note_tone) }

/-- The two `processing` events yielded for one PDF page, both carrying the
same preview payload of the rendered page (the encode block is wrapped in
`try` in the source; with total codec functions it always succeeds). -/
def pdfPageEvents (codec : Codec) (num_pages idx : Nat) (page : Img) : List Event :=
  [ .processing (idx + 1) num_pages
      s!"Processing page {idx + 1} of {num_pages}..."
      (some (previewBase64 codec page)),
    .processing (idx + 1) num_pages
      s!"Completed page {idx + 1} of {num_pages}"
      (some (previewBase64 codec page)) ]

/-- `process_pdf_with_progress(pdf_path, output_pptx, dpi, api_key,
note_style, note_tone)`: yields `started`, two `processing` events per page,
performs the save, and yields `saving`. -/
def process_pdf_with_progress (codec : Codec) (b : Backend) (pdf : Pdf)
    (output_pptx note_style note_tone : String) : List Step :=
  let num_pages := pdf.pages.length
  (Step.emit (.started num_pages s!"Starting to convert {num_pages} pages...")
    :: (pdf.pages.enum.flatMap fun p =>
          (pdfPageEvents codec num_pages p.1 p.2).map Step.emit))
  ++ [Step.saveDeck (pdfOutputDeck codec b pdf note_style note_tone) output_pptx,
      Step.emit (.saving "Saving presentation...")]

/-- Projection from a run trace to the event sequence the caller receives. -/
def stepsEvents (steps : List Step) : List Event :=
  steps.filterMap fun s =>
    match s with
    | .emit e => some e
    | .saveDeck _ _ => none

/-- `event_generator` of `server.py`, at the trace level: if no uploaded file
matches the processing id, a single `{"error": "File not found"}` event is
emitted and the generator returns; otherwise the pipeline trace is streamed
and, after cleanup, the terminal `complete` event carrying the output
filename is emitted. -/
def event_generator (inputFound : Bool) (pipeline : List Step)
    (output_filename : String) : List Step :=
  if inputFound then pipeline ++ [Step.emit (.complete output_filename)]
  else [Step.emit (.error "File not found")]

/-- True on the yielded `saving` event. -/
def isSavingEmit : Step → Bool
  | .emit (.saving _) => true
  | _ => false

/-- True on the save effect `prs.save(output_pptx)`. -/
def isSaveStep : Step → Bool
  | .saveDeck _ _ => true
  | _ => false

/-- Whether some `saving` event is emitted immediately before the save call
in a trace. -/
def savingBeforeSaveB (tr : List Step) : Bool :=
  (tr.zip tr.tail).any fun pr => isSavingEmit pr.1 && isSaveStep pr.2

/-- The progress-event grammar of the specification, for a job with
`numUnits` source units: one `started` event first, then per unit (in index
order) a pair of `processing` events sharing `current_slide = index + 1`,
`total_slides = numUnits` and the same preview payload, then one `saving`
event, then a single terminal `complete` or `error` event. -/
def eventSeqGrammar (numUnits : Nat) (evts : List Event) : Prop :=
  ∃ (smsg : String) (pairs : List (Event × Event)) (savemsg : String) (term : Event),
    pairs.length = numUnits ∧
    (∀ (i : Nat) (h : i < pairs.length),
      ∃ m1 m2 p,
        (pairs.get ⟨i, h⟩).1 = Event.processing (i + 1) numUnits m1 p ∧
        (pairs.get ⟨i, h⟩).2 = Event.processing (i + 1) numUnits m2 p) ∧
    ((∃ f, term = Event.complete f) ∨ (∃ m, term = Event.error m)) ∧
    evts = Event.started numUnits smsg
      :: ((pairs.flatMap fun pr => [pr.1, pr.2]) ++ [Event.saving savemsg, term])

/-! Concrete fixtures used by witnesses and counterexamples. -/

/-- Trivial codec used in concrete instantiations. -/
def codec0 : Codec := { png := fun _ => [], b64 := fun _ => "" }

/-- A backend whose every generation call raises. -/
def bFail : Backend := { fromImage := fun _ _ => none, fromText := fun _ => none }

/-- A deterministic backend whose image answers and text answers are
distinguishable. -/
def bSplit : Backend :=
  { fromImage := fun _ _ => some "IMAGE NOTES", fromText := fun _ => some "TEXT NOTES" }

/-- A slide containing only non-empty text boxes. -/
def slideTextOnly : Slide :=
  { shapes := [{ left := 914400, top := 457200, width := 3657600, height := 914400,
                 kind := .textbox "Hello world" }],
    notes := "" }

/-- A slide containing only a picture shape. -/
def slidePicOnly : Slide :=
  { shapes := [{ left := 914400, top := 914400, width := 1828800, height := 1828800,
                 kind := .picture [9, 9, 9] }],
    notes := "" }

/-- A slide with no shapes at all. -/
def slideEmpty : Slide := { shapes := [], notes := "" }

/-- A deck with a single slide that has no content. -/
def deckEmptySlide : Deck :=
  { slideWidth := 9144000, slideHeight := 5143500, slides := [slideEmpty] }

/-- A deck with a single text-only slide. -/
def deckText1 : Deck :=
  { slideWidth := 9144000, slideHeight := 5143500, slides := [slideTextOnly] }

/-- The two-slide deck of the picture-versus-text scenario: slide 1 has only
a picture, slide 2 has only text boxes. -/
def deck2 : Deck :=
  { slideWidth := 9144000, slideHeight := 5143500,
    slides := [slidePicOnly, slideTextOnly] }

/-- A deck exercising both the text path and the empty path. -/
def deckW : Deck :=
  { slideWidth := 9144000, slideHeight := 5143500,
    slides := [slideTextOnly, slideEmpty] }

/-- A one-page PDF whose page matches the 16:9 slide aspect. -/
def pdfW : Pdf := { pages := [Img.raster 1600 900 [0]] }

/-- A PDF with no pages. -/
def pdfEmpty : Pdf := { pages := [] }

/-! Claim theorems. -/

/-- C6: both narration entry points catch a failure of the generation call
and return the fixed placeholder string instead of propagating.  The
hypotheses state that the one backend call each entry point makes (with the
prompt it actually builds) raises; the conclusion is that the result is the
fixed placeholder, so in the total model a backend failure cannot abort the
job. -/
theorem C6_backend_failure_returns_placeholder (codec : Codec) (b : Backend)
    (image : Img) (slide_text note_style note_tone : String)
    (himg : b.fromImage (codec.png image) (mkPrompt note_style note_tone none) = none)
    (htxt : b.fromText (mkPrompt note_style note_tone (some slide_text)) = none)
    (hne : (pyStrip slide_text).isEmpty = false) :
    generate_speaker_notes codec b image note_style note_tone = failurePlaceholder ∧
    generate_notes_from_text b slide_text note_style note_tone = failurePlaceholder := by
  constructor
  · simp [generate_speaker_notes, himg]
  · simp [generate_notes_from_text, hne, htxt]

/-- Witness for C6 at a concrete image, text and failing backend. -/
theorem C6_backend_failure_returns_placeholder_witness :
    generate_speaker_notes codec0 bFail (Img.raster 1 1 []) "standard" "professional"
      = failurePlaceholder ∧
    generate_notes_from_text bFail "Hello" "standard" "professional"
      = failurePlaceholder :=
  C6_backend_failure_returns_placeholder codec0 bFail (Img.raster 1 1 []) "Hello"
    "standard" "professional" rfl rfl (by decide)

/-- C8: an unrecognized style string resolves to the `standard` style
configuration, an unrecognized tone string resolves to the `professional`
register description, and in particular the style string `epic` resolves to
the `standard` band; the lookup is total, so no error is possible. -/
theorem C8_style_tone_fallback :
    (∀ s : String, s ∉ (["brief", "standard", "detailed"] : List String) →
      resolveStyleConfig s = standardStyle) ∧
    (∀ t : String,
      t ∉ (["professional", "casual", "academic", "persuasive", "enthusiastic",
            "storytelling", "technical", "inspirational", "educational"] : List String) →
      resolveToneDescription t = resolveToneDescription "professional") ∧
    resolveStyleConfig "epic" = standardStyle := by
  refine ⟨?_, ?_, by decide⟩
  · intro s hs
    simp only [List.mem_cons, List.not_mem_nil, or_false, not_or] at hs
    obtain ⟨h1, h2, h3⟩ := hs
    simp [resolveStyleConfig, style_configs, h1, h2, h3]
  · intro t ht
    simp only [List.mem_cons, List.not_mem_nil, or_false, not_or] at ht
    obtain ⟨h1, h2, h3, h4, h5, h6, h7, h8, h9⟩ := ht
    simp [resolveToneDescription, tone_configs, h1, h2, h3, h4, h5, h6, h7, h8, h9]

/-- Witness for C8 at the unrecognized style `epic` and an unrecognized
tone. -/
theorem C8_style_tone_fallback_witness :
    resolveStyleConfig "epic" = standardStyle ∧
    resolveToneDescription "sarcastic" = resolveToneDescription "professional" :=
  ⟨C8_style_tone_fallback.2.2,
   C8_style_tone_fallback.2.1 "sarcastic" (by decide)⟩

/-- C10: the preview payload attached to `processing` events is never
upscaled — when the visual representation is at most 800 pixels wide the
payload is the base64 PNG encoding of the unmodified image, and the
proportional downscale to width 800 happens exactly when the width exceeds
800; moreover both `processing` events of a unit (pptx slide or PDF page)
carry the identical preview payload. -/
theorem C10_preview_no_upscale (codec : Codec) (img : Img) :
    (img.width ≤ 800 → previewBase64 codec img = codec.b64 (codec.png img)) ∧
    (800 < img.width →
      previewBase64 codec img =
        codec.b64 (codec.png (Img.resized img 800 (img.height * 800 / img.width)))) ∧
    (∀ (prs : Deck) (n idx : Nat) (slide : Slide),
      ∃ p m1 m2,
        pptxSlideEvents codec prs n idx slide =
          [Event.processing (idx + 1) n m1 p, Event.processing (idx + 1) n m2 p]) ∧
    (∀ (n idx : Nat) (page : Img),
      ∃ p m1 m2,
        pdfPageEvents codec n idx page =
          [Event.processing (idx + 1) n m1 p, Event.processing (idx + 1) n m2 p]) := by
  refine ⟨fun hle => ?_, fun hgt => ?_, fun prs n idx slide => ⟨_, _, _, rfl⟩,
    fun n idx page => ⟨_, _, _, rfl⟩⟩
  · simp [previewBase64, Nat.not_lt.mpr hle]
  · simp [previewBase64, hgt]

/-- Witness for C10 at a 400-wide image (kept as is) and a 1000-wide image
(downscaled to 800 wide). -/
theorem C10_preview_no_upscale_witness :
    previewBase64 codec0 (Img.raster 400 300 []) =
      codec0.b64 (codec0.png (Img.raster 400 300 [])) ∧
    previewBase64 codec0 (Img.raster 1000 500 []) =
      codec0.b64 (codec0.png (Img.resized (Img.raster 1000 500 []) 800
        ((Img.raster 1000 500 []).height * 800 / (Img.raster 1000 500 []).width))) :=
  ⟨(C10_preview_no_upscale codec0 (Img.raster 400 300 [])).1 (by decide),
   (C10_preview_no_upscale codec0 (Img.raster 1000 500 [])).2.1 (by decide)⟩

/-- Membership in the list of fixed non-empty placeholder strings that a
failing backend can leave as narration in the streaming pptx pipeline. -/
theorem pptxSlideNotes_placeholder_of_fail (codec : Codec) (b : Backend)
    (note_style note_tone : String) (prs : Deck) (slide : Slide)
    (himg : ∀ d p, b.fromImage d p = none)
    (htxt : ∀ p, b.fromText p = none) :
    pptxSlideNotes codec b note_style note_tone prs slide ∈
      [failurePlaceholder, visualOnlyPlaceholder,
       "This slide appears to be empty or contains only visual elements without text."] := by
  unfold pptxSlideNotes
  cases hr : render_slide_as_image prs slide with
  | some im => simp [hr, generate_speaker_notes, himg]
  | none =>
      by_cases hc : (combinedText slide).isEmpty
      · simp [hr, hc]
      · by_cases ht : (pyStrip (combinedText slide)).isEmpty
        · simp [hr, hc, generate_notes_from_text, ht]
        · simp [hr, hc, generate_notes_from_text, ht, htxt]

/-- C2: when every generation call fails, every slide of the saved output
deck — for both the existing-deck pipeline and the PDF pipeline — carries one
of the fixed non-empty placeholder strings as narration; notes are never left
empty and (the model being total) no exception escapes. -/
theorem C2_notes_nonempty_under_failure (codec : Codec) (b : Backend)
    (input : Deck) (pdf : Pdf) (note_style note_tone : String)
    (himg : ∀ d p, b.fromImage d p = none)
    (htxt : ∀ p, b.fromText p = none) :
    (∀ s ∈ (pptxOutputDeck codec b input note_style note_tone).slides,
      s.notes ∈ [failurePlaceholder, visualOnlyPlaceholder,
        "This slide appears to be empty or contains only visual elements without text."] ∧
      s.notes ≠ "") ∧
    (∀ s ∈ (pdfOutputDeck codec b pdf note_style note_tone).slides,
      s.notes = failurePlaceholder ∧ s.notes ≠ "") := by
  have hne : ∀ x ∈ [failurePlaceholder, visualOnlyPlaceholder,
      "This slide appears to be empty or contains only visual elements without text."],
      x ≠ "" := by decide
  constructor
  · intro s hs
    simp only [pptxOutputDeck, List.mem_map] at hs
    obtain ⟨a, _, rfl⟩ := hs
    have hmem := pptxSlideNotes_placeholder_of_fail codec b note_style note_tone input a himg htxt
    exact ⟨hmem, hne _ hmem⟩
  · intro s hs
    simp only [pdfOutputDeck, List.mem_map] at hs
    obtain ⟨a, _, rfl⟩ := hs
    have hpr : (pdfPageSlide codec b note_style note_tone a).notes
        = generate_speaker_notes codec b a note_style note_tone := rfl
    have hgen : generate_speaker_notes codec b a note_style note_tone = failurePlaceholder := by
      simp [generate_speaker_notes, himg]
    rw [hpr, hgen]
    exact ⟨rfl, by decide⟩

/-- Witness for C2 at a concrete deck (one text slide, one empty slide), a
concrete one-page PDF and the always-failing backend. -/
theorem C2_notes_nonempty_under_failure_witness :
    (∀ s ∈ (pptxOutputDeck codec0 bFail deckW "standard" "professional").slides,
      s.notes ∈ [failurePlaceholder, visualOnlyPlaceholder,
        "This slide appears to be empty or contains only visual elements without text."] ∧
      s.notes ≠ "") ∧
    (∀ s ∈ (pdfOutputDeck codec0 bFail pdfW "standard" "professional").slides,
      s.notes = failurePlaceholder ∧ s.notes ≠ "") :=
  C2_notes_nonempty_under_failure codec0 bFail deckW pdfW "standard" "professional"
    (fun _ _ => rfl) (fun _ => rfl)

/-- C7: aspect-fit placement of a rendered page image — when the image
aspect ratio exceeds the slide aspect ratio the width is pinned to the slide
width with left offset 0, the height is scaled proportionally and the top
offset centres it vertically; otherwise the height is pinned with top offset
0, the width is scaled proportionally and the left offset centres it
horizontally; the placed rectangle always fits inside the slide (no
cropping), and an image whose aspect ratio equals the slide aspect exactly
fills the slide with zero offsets. -/
theorem C7_aspect_fit (sW sH iW iH : Nat)
    (hsW : 0 < sW) (hsH : 0 < sH) (hiW : 0 < iW) (hiH : 0 < iH) :
    (((iW : ℚ) / (iH : ℚ)) > ((sW : ℚ) / (sH : ℚ)) →
      (aspectFit sW sH iW iH).pic_width = sW ∧
      (aspectFit sW sH iW iH).left = 0 ∧
      (aspectFit sW sH iW iH).pic_height = sW * iH / iW ∧
      (aspectFit sW sH iW iH).top = (sH - sW * iH / iW) / 2) ∧
    (¬ ((iW : ℚ) / (iH : ℚ)) > ((sW : ℚ) / (sH : ℚ)) →
      (aspectFit sW sH iW iH).pic_height = sH ∧
      (aspectFit sW sH iW iH).top = 0 ∧
      (aspectFit sW sH iW iH).pic_width = sH * iW / iH ∧
      (aspectFit sW sH iW iH).left = (sW - sH * iW / iH) / 2) ∧
    (aspectFit sW sH iW iH).pic_width ≤ sW ∧
    (aspectFit sW sH iW iH).pic_height ≤ sH ∧
    (aspectFit sW sH iW iH).left + (aspectFit sW sH iW iH).pic_width ≤ sW ∧
    (aspectFit sW sH iW iH).top + (aspectFit sW sH iW iH).pic_height ≤ sH ∧
    (iW * sH = sW * iH → aspectFit sW sH iW iH = ⟨sW, sH, 0, 0⟩) := by
  have key : (((sW : ℚ) / (sH : ℚ)) < ((iW : ℚ) / (iH : ℚ))) ↔ sW * iH < iW * sH := by
    rw [div_lt_div_iff₀ (by exact_mod_cast hsH) (by exact_mod_cast hiH)]
    exact_mod_cast Iff.rfl
  by_cases hgt : ((iW : ℚ) / (iH : ℚ)) > ((sW : ℚ) / (sH : ℚ))
  · have hlt : sW * iH < iW * sH := key.mp hgt
    have hfit : aspectFit sW sH iW iH =
        ⟨sW, sW * iH / iW, 0, (sH - sW * iH / iW) / 2⟩ := by
      unfold aspectFit
      rw [if_pos hgt]
    have hph : sW * iH / iW ≤ sH := by
      calc sW * iH / iW ≤ iW * sH / iW := Nat.div_le_div_right (Nat.le_of_lt hlt)
        _ = sH := Nat.mul_div_cancel_left sH hiW
    have htop : (sH - sW * iH / iW) / 2 ≤ sH - sW * iH / iW := Nat.div_le_self _ _
    rw [hfit]
    refine ⟨fun _ => ⟨rfl, rfl, rfl, rfl⟩, fun h2 => absurd hgt h2,
      le_refl _, hph,
      by show 0 + sW ≤ sW; omega,
      by show (sH - sW * iH / iW) / 2 + sW * iH / iW ≤ sH; omega,
      fun heq => absurd heq (Nat.ne_of_gt hlt)⟩
  · have hnot : ¬ (sW * iH < iW * sH) := fun hc => hgt (key.mpr hc)
    have hle : iW * sH ≤ sW * iH := Nat.le_of_not_lt hnot
    have hfit : aspectFit sW sH iW iH =
        ⟨sH * iW / iH, sH, (sW - sH * iW / iH) / 2, 0⟩ := by
      unfold aspectFit
      rw [if_neg hgt]
    have h1 : sH * iW ≤ sW * iH := by
      rw [Nat.mul_comm sH iW]
      exact hle
    have hpw : sH * iW / iH ≤ sW := by
      calc sH * iW / iH ≤ sW * iH / iH := Nat.div_le_div_right h1
        _ = sW := Nat.mul_div_cancel sW hiH
    have hleft : (sW - sH * iW / iH) / 2 ≤ sW - sH * iW / iH := Nat.div_le_self _ _
    rw [hfit]
    refine ⟨fun h2 => absurd h2 hgt, fun _ => ⟨rfl, rfl, rfl, rfl⟩,
      hpw, le_refl _,
      by show (sW - sH * iW / iH) / 2 + sH * iW / iH ≤ sW; omega,
      by show 0 + sH ≤ sH; omega,
      fun heq => ?_⟩
    have h2 : sH * iW = sW * iH := by
      rw [Nat.mul_comm sH iW]
      exact heq
    have hpw2 : sH * iW / iH = sW := by
      rw [h2]
      exact Nat.mul_div_cancel sW hiH
    simp [hpw2]

/-- Witness for C7: a 32:9 image on a 16:9 slide is pinned to the slide
width and centred vertically, and a 16:9 image fills the slide exactly. -/
theorem C7_aspect_fit_witness :
    aspectFit 16 9 32 9 = ⟨16, 4, 0, 2⟩ ∧ aspectFit 16 9 16 9 = ⟨16, 9, 0, 0⟩ := by
  constructor
  · obtain ⟨h1, h2, h3, h4⟩ :=
      (C7_aspect_fit 16 9 32 9 (by norm_num) (by norm_num) (by norm_num) (by norm_num)).1
        (by norm_num)
    have heta : aspectFit 16 9 32 9 =
        ⟨(aspectFit 16 9 32 9).pic_width, (aspectFit 16 9 32 9).pic_height,
         (aspectFit 16 9 32 9).left, (aspectFit 16 9 32 9).top⟩ := rfl
    rw [heta, h1, h2, h3, h4]
  · exact (C7_aspect_fit 16 9 16 9 (by norm_num) (by norm_num) (by norm_num)
      (by norm_num)).2.2.2.2.2.2 rfl

/-- C9: a job with zero source units (0-page PDF, 0-slide deck) emits
`started` with `total_slides = 0`, emits no `processing` events, performs the
save of a deck with zero slides, emits `saving`, and terminates with
`complete`. -/
theorem C9_zero_units (codec : Codec) (b : Backend) (w h : Nat)
    (path fname note_style note_tone : String) :
    event_generator true
        (process_pdf_with_progress codec b pdfEmpty path note_style note_tone) fname =
      [Step.emit (.started 0 "Starting to convert 0 pages..."),
       Step.saveDeck { slideWidth := pdfSlideWidth, slideHeight := pdfSlideHeight,
                       slides := [] } path,
       Step.emit (.saving "Saving presentation..."),
       Step.emit (.complete fname)] ∧
    (∃ startMsg,
      event_generator true
        (process_pptx_with_progress codec b
          { slideWidth := w, slideHeight := h, slides := [] } path note_style note_tone) fname =
      [Step.emit (.started 0 startMsg),
       Step.saveDeck { slideWidth := w, slideHeight := h, slides := [] } path,
       Step.emit (.saving "Saving presentation..."),
       Step.emit (.complete fname)]) :=
  ⟨rfl, ⟨_, rfl⟩⟩

/-- C3 counterexample: on a deck whose single slide has no content, the
blocking form attaches
"This slide appears to be empty or contains only visual elements without
text. Please review and add custom speaker notes as needed." while the
incremental form attaches the shorter
"This slide appears to be empty or contains only visual elements without
text.", so the two output decks are not identical. -/
theorem C3_counterexample :
    add_notes_to_pptx codec0 bFail deckEmptySlide ≠
      pptxOutputDeck codec0 bFail deckEmptySlide "standard" "professional" := by
  decide

/-- C3 (amended): the blocking form and the incremental form produce the
identical output deck (same slides, same notes) whenever every slide either
yields a visual representation or has non-empty extracted text, with the
incremental form run at the default `standard`/`professional` style and tone
that the blocking form hard-codes; the two forms differ only in their
fallback placeholder for content-free slides. -/
theorem C3_blocking_incremental_agree (codec : Codec) (b : Backend) (input : Deck)
    (h : ∀ slide ∈ input.slides,
      (render_slide_as_image input slide).isSome = true ∨
        (combinedText slide).isEmpty = false) :
    add_notes_to_pptx codec b input =
      pptxOutputDeck codec b input "standard" "professional" := by
  unfold add_notes_to_pptx pptxOutputDeck
  congr 1
  apply List.map_congr_left
  intro a ha
  have hone := h a ha
  dsimp only
  congr 1
  cases hr : render_slide_as_image input a with
  | some im => simp [pptxSlideNotes, hr]
  | none =>
      rcases hone with hsome | hc
      · rw [hr] at hsome
        simp at hsome
      · simp [pptxSlideNotes, hr, hc]

/-- Witness for C3 (amended) at a one-slide deck with text content. -/
theorem C3_blocking_incremental_agree_witness :
    add_notes_to_pptx codec0 bSplit deckText1 =
      pptxOutputDeck codec0 bSplit deckText1 "standard" "professional" :=
  C3_blocking_incremental_agree codec0 bSplit deckText1 (by decide)

/-- C5 counterexample: in the two-slide scenario (slide 1 picture only,
slide 2 text boxes only) with a backend whose image and text answers are
distinguishable, the narration attached to slide 2 is not the text entry
point applied to its extracted text — the visualizer renders text slides
too, so slide 2 also goes through the image entry point. -/
theorem C5_counterexample :
    ((pptxOutputDeck codec0 bSplit deck2 "standard" "professional").slides.map
        Slide.notes).getD 1 "" ≠
      generate_notes_from_text bSplit (combinedText slideTextOnly)
        "standard" "professional" := by
  decide

/-- C5 (amended): in the two-slide scenario, both slides have synthesized
visual representations and both narrations are produced by the image entry
point `generate_speaker_notes` on those visuals; the text entry point is
reached only when no visual representation exists. -/
theorem C5_both_slides_use_image_path (codec : Codec) (b : Backend)
    (note_style note_tone : String) :
    ∃ v1 v2,
      render_slide_as_image deck2 slidePicOnly = some v1 ∧
      render_slide_as_image deck2 slideTextOnly = some v2 ∧
      (pptxOutputDeck codec b deck2 note_style note_tone).slides.map Slide.notes =
        [generate_speaker_notes codec b v1 note_style note_tone,
         generate_speaker_notes codec b v2 note_style note_tone] := by
  refine ⟨_, _, rfl, rfl, ?_⟩
  rfl

/-- The event projection of the empty trace. -/
theorem stepsEvents_nil : stepsEvents [] = [] := rfl

/-- The event projection keeps emitted events. -/
theorem stepsEvents_cons_emit (e : Event) (l : List Step) :
    stepsEvents (Step.emit e :: l) = e :: stepsEvents l := rfl

/-- The event projection drops save effects. -/
theorem stepsEvents_cons_save (d : Deck) (p : String) (l : List Step) :
    stepsEvents (Step.saveDeck d p :: l) = stepsEvents l := rfl

/-- The event projection distributes over trace concatenation. -/
theorem stepsEvents_append (a b : List Step) :
    stepsEvents (a ++ b) = stepsEvents a ++ stepsEvents b :=
  List.filterMap_append a b _

/-- The event projection of a trace of pure emissions. -/
theorem stepsEvents_emitMap (l : List Event) :
    stepsEvents (l.map Step.emit) = l := by
  induction l with
  | nil => rfl
  | cons x xs ih => rw [List.map_cons, stepsEvents_cons_emit, ih]

/-- The event projection of a flattened family of pure emissions. -/
theorem stepsEvents_flatMap_emit {α : Type} (L : List α) (g : α → List Event) :
    stepsEvents (L.flatMap fun a => (g a).map Step.emit) = L.flatMap g := by
  induction L with
  | nil => rfl
  | cons x xs ih =>
      rw [List.flatMap_cons, List.flatMap_cons, stepsEvents_append, stepsEvents_emitMap, ih]

/-- Flattening a list of constructed pairs into two-element lists. -/
theorem flatMap_pairs {α : Type} (L : List α) (f g : α → Event) :
    ((L.map fun a => (f a, g a)).flatMap fun pr => [pr.1, pr.2]) =
      L.flatMap fun a => [f a, g a] := by
  induction L with
  | nil => rfl
  | cons x xs ih => simp [ih]

/-- The event sequence a caller receives from a successful existing-deck
job: `started`, the per-slide `processing` events, `saving`, `complete`. -/
theorem pptx_server_events (codec : Codec) (b : Backend) (input : Deck)
    (path fname note_style note_tone : String) :
    stepsEvents (event_generator true
        (process_pptx_with_progress codec b input path note_style note_tone) fname) =
      Event.started input.slides.length
          s!"Starting to process {input.slides.length} slides..."
        :: ((input.slides.enum.flatMap fun p =>
              pptxSlideEvents codec input input.slides.length p.1 p.2)
            ++ [Event.saving "Saving presentation...", Event.complete fname]) := by
  unfold event_generator process_pptx_with_progress
  rw [if_pos rfl]
  simp only [List.cons_append, List.append_assoc, stepsEvents_cons_emit,
    stepsEvents_append, stepsEvents_flatMap_emit, stepsEvents_cons_save,
    stepsEvents_nil, List.singleton_append, List.nil_append]

/-- The event sequence a caller receives from a successful PDF job. -/
theorem pdf_server_events (codec : Codec) (b : Backend) (pdf : Pdf)
    (path fname note_style note_tone : String) :
    stepsEvents (event_generator true
        (process_pdf_with_progress codec b pdf path note_style note_tone) fname) =
      Event.started pdf.pages.length
          s!"Starting to convert {pdf.pages.length} pages..."
        :: ((pdf.pages.enum.flatMap fun p =>
              pdfPageEvents codec pdf.pages.length p.1 p.2)
            ++ [Event.saving "Saving presentation...", Event.complete fname]) := by
  unfold event_generator process_pdf_with_progress
  rw [if_pos rfl]
  simp only [List.cons_append, List.append_assoc, stepsEvents_cons_emit,
    stepsEvents_append, stepsEvents_flatMap_emit, stepsEvents_cons_save,
    stepsEvents_nil, List.singleton_append, List.nil_append]

/-- C1 (amended): for every job whose input file is found and whose run
raises no fatal error, the event sequence received by the caller matches the
grammar — one `started` first, exactly one pair of `processing` events per
source unit in increasing index order with `current_slide = index + 1` and a
shared preview payload, then one `saving`, then a single terminal event
(here `complete`); this holds for both the existing-deck and the PDF
pipelines. -/
theorem C1_event_grammar (codec : Codec) (b : Backend) (input : Deck) (pdf : Pdf)
    (path fname note_style note_tone : String) :
    eventSeqGrammar input.slides.length
      (stepsEvents (event_generator true
        (process_pptx_with_progress codec b input path note_style note_tone) fname)) ∧
    eventSeqGrammar pdf.pages.length
      (stepsEvents (event_generator true
        (process_pdf_with_progress codec b pdf path note_style note_tone) fname)) := by
  constructor
  · rw [pptx_server_events]
    refine ⟨s!"Starting to process {input.slides.length} slides...",
      input.slides.enum.map fun p =>
        (Event.processing (p.1 + 1) input.slides.length
            s!"Processing slide {p.1 + 1} of {input.slides.length}..."
            ((render_slide_as_image input p.2).map (previewBase64 codec)),
         Event.processing (p.1 + 1) input.slides.length
            s!"Completed slide {p.1 + 1} of {input.slides.length}"
            ((render_slide_as_image input p.2).map (previewBase64 codec))),
      "Saving presentation...", Event.complete fname,
      by simp [List.enum_length], ?_, Or.inl ⟨fname, rfl⟩, ?_⟩
    · intro i hlt
      simp only [List.get_eq_getElem, List.getElem_map, List.getElem_enum]
      exact ⟨_, _, _, rfl, rfl⟩
    · rw [flatMap_pairs]
      rfl
  · rw [pdf_server_events]
    refine ⟨s!"Starting to convert {pdf.pages.length} pages...",
      pdf.pages.enum.map fun p =>
        (Event.processing (p.1 + 1) pdf.pages.length
            s!"Processing page {p.1 + 1} of {pdf.pages.length}..."
            (some (previewBase64 codec p.2)),
         Event.processing (p.1 + 1) pdf.pages.length
            s!"Completed page {p.1 + 1} of {pdf.pages.length}"
            (some (previewBase64 codec p.2))),
      "Saving presentation...", Event.complete fname,
      by simp [List.enum_length], ?_, Or.inl ⟨fname, rfl⟩, ?_⟩
    · intro i hlt
      simp only [List.get_eq_getElem, List.getElem_map, List.getElem_enum]
      exact ⟨_, _, _, rfl, rfl⟩
    · rw [flatMap_pairs]
      rfl

/-- C1 counterexample: a processing request whose uploaded input file is
missing emits the single event sequence `[error "File not found"]`, which
does not match the grammar — its first event is not `started` and it contains
no `saving` event — so the grammar does not hold for every job. -/
theorem C1_counterexample :
    ¬ eventSeqGrammar 0 (stepsEvents (event_generator false [] "output.pptx")) := by
  intro hg
  obtain ⟨smsg, pairs, savemsg, term, hlen, hpairs, hterm, heq⟩ := hg
  have hev : stepsEvents (event_generator false [] "output.pptx")
      = [Event.error "File not found"] := rfl
  rw [hev] at heq
  injection heq with h1 h2
  exact Event.noConfusion h1

/-- C4 counterexample: on a concrete job that reaches the terminal step, no
`saving` event is emitted immediately before the save call — the trace shows
the save effect happening first and the `saving` event emitted immediately
after it. -/
theorem C4_counterexample :
    savingBeforeSaveB (event_generator true
      (process_pdf_with_progress codec0 bFail pdfEmpty "out.pptx" "standard" "professional")
      "result_with_notes.pptx") = false ∧
    event_generator true
      (process_pdf_with_progress codec0 bFail pdfEmpty "out.pptx" "standard" "professional")
      "result_with_notes.pptx" =
      [Step.emit (.started 0 "Starting to convert 0 pages..."),
       Step.saveDeck (pdfOutputDeck codec0 bFail pdfEmpty "standard" "professional") "out.pptx",
       Step.emit (.saving "Saving presentation..."),
       Step.emit (.complete "result_with_notes.pptx")] :=
  ⟨rfl, rfl⟩

/-- C4 (amended): in every job that reaches the terminal step, the save call
happens first and is followed immediately by the `saving` event and then the
`complete` event; no save effect occurs earlier in the trace. -/
theorem C4_save_then_saving_then_complete (codec : Codec) (b : Backend)
    (input : Deck) (pdf : Pdf) (path fname note_style note_tone : String) :
    (∃ pre,
      event_generator true
          (process_pptx_with_progress codec b input path note_style note_tone) fname =
        pre ++ [Step.saveDeck (pptxOutputDeck codec b input note_style note_tone) path,
                Step.emit (.saving "Saving presentation..."),
                Step.emit (.complete fname)] ∧
      ∀ s ∈ pre, isSaveStep s = false) ∧
    (∃ pre,
      event_generator true
          (process_pdf_with_progress codec b pdf path note_style note_tone) fname =
        pre ++ [Step.saveDeck (pdfOutputDeck codec b pdf note_style note_tone) path,
                Step.emit (.saving "Saving presentation..."),
                Step.emit (.complete fname)] ∧
      ∀ s ∈ pre, isSaveStep s = false) := by
  constructor
  · refine ⟨Step.emit (.started input.slides.length
        s!"Starting to process {input.slides.length} slides...")
      :: (input.slides.enum.flatMap fun p =>
            (pptxSlideEvents codec input input.slides.length p.1 p.2).map Step.emit),
      ?_, ?_⟩
    · unfold event_generator process_pptx_with_progress
      rw [if_pos rfl]
      simp [List.cons_append, List.append_assoc]
    · intro s hs
      rcases List.mem_cons.mp hs with rfl | hs2
      · rfl
      · obtain ⟨a, -, hs3⟩ := List.mem_flatMap.mp hs2
        obtain ⟨e, -, rfl⟩ := List.mem_map.mp hs3
        rfl
  · refine ⟨Step.emit (.started pdf.pages.length
        s!"Starting to convert {pdf.pages.length} pages...")
      :: (pdf.pages.enum.flatMap fun p =>
            (pdfPageEvents codec pdf.pages.length p.1 p.2).map Step.emit),
      ?_, ?_⟩
    · unfold event_generator process_pdf_with_progress
      rw [if_pos rfl]
      simp [List.cons_append, List.append_assoc]
    · intro s hs
      rcases List.mem_cons.mp hs with rfl | hs2
      · rfl
      · obtain ⟨a, -, hs3⟩ := List.mem_flatMap.mp hs2
        obtain ⟨e, -, rfl⟩ := List.mem_map.mp hs3
        rfl

end SpeakerNotes
